import Mathlib

/-!
A shallow embedding of `music_transfer.py` from the Music-Transfer-Tool
repository, together with theorems checking the natural-language
specification against it.

Modelling conventions:
* Python `raise ValueError(msg)` / caught exceptions are modelled with
  `Except String`; a `try/except` block is a `match` on that value.
* External backends (the `spotipy` client, `ytmusicapi` client, and the
  `requests` session) are modelled as records of response oracles; one
  execution of the orchestrator's transfer body is modelled against a
  `TransferEnv` recording the outcome of each external call it makes.
* Python dicts used as records become structures; `dict.get(k, d)`
  becomes `Option.getD`; the credential dicts and `os.environ` become
  functions `String → Option String`.
* `time.time()` is an explicit `Nat` parameter where the code reads it.
* Mutation of the shared task record is modelled as an explicit event
  trace (`Ev`) emitted by the transfer body, folded into a final
  `TransferTask` record.
-/

namespace MusicTransfer

/-- Truthiness of a Python string-or-None value (`None` and `""` are falsy). -/
def pyTruthy : Option String → Bool
  | none => false
  | some s => !(s == "")

/-- Python `a or b` on string-or-None values: `b` when `a` is falsy. -/
def pyOrStr (a b : Option String) : Option String :=
  match a with
  | none => b
  | some s => if s == "" then b else some s

/-- Python `str.startswith`, as a structural recursion over character lists. -/
def charsStartWith : List Char → List Char → Bool
  | _, [] => true
  | [], _ :: _ => false
  | c :: cs, p :: ps => c == p && charsStartWith cs ps

/-- The startswith test lifted to strings. -/
def strStartsWith (s p : String) : Bool :=
  charsStartWith s.data p.data

/-- Internal playlist record produced by every adapter's `get_playlists`
(the dict with keys id/name/description/track_count/owner). -/
structure Playlist where
  id : String
  name : String
  description : String
  track_count : Nat
  owner : String
deriving DecidableEq, Repr

/-- Internal track record produced by `get_playlist_tracks`
(the dict with keys id/name/artist/album/uri). -/
structure Track where
  id : String
  name : String
  artist : String
  album : String
  uri : String
deriving DecidableEq, Repr

/-! ## Spotify adapter (`SpotifyAdapter`) -/

/-- A playlist object as returned by the Spotify web API
(the items of `current_user_playlists`). `description` is optional
because the code reads it with a get call defaulting to the empty string. -/
structure SpotifyApiPlaylist where
  id : String
  name : String
  description : Option String
  tracks_total : Nat
  owner_display_name : String

/-- A track object as returned by the Spotify web API. `artist0_name`
models the name of the first artist entry of the track. -/
structure SpotifyApiTrack where
  id : String
  name : String
  artist0_name : String
  album_name : String
  uri : String

/-- The `spotipy.Spotify` client held in `self.sp`, modelled as a record
of response oracles for the API calls the adapter makes. An item of
`playlist_tracks` is `none` when the API returns a null track item. -/
structure SpotifyBackend where
  current_user_playlists : List SpotifyApiPlaylist
  playlist_tracks : String → List (Option SpotifyApiTrack)
  current_user_id : String
  user_playlist_create : String → String → String → String
  playlist_add_items : String → List String → Except String Unit

/-- Mutable state of a `SpotifyAdapter` instance: `self.sp`, `None` until
a successful `authenticate`. -/
structure SpotifyState where
  sp : Option SpotifyBackend

/-- The chunking performed by `for i in range(0, len(track_uris), chunk_size)`
with slices `track_uris[i:i + chunk_size]`. -/
def chunkList {α : Type} (n : Nat) (l : List α) : List (List α) :=
  if _hn : n = 0 then []
  else
    match l with
    | [] => []
    | x :: xs => (x :: xs).take n :: chunkList n ((x :: xs).drop n)
termination_by l.length
decreasing_by
  simp only [List.length_drop, List.length_cons]
  omega

/-- The loop of `add_tracks_to_playlist`: issue one `playlist_add_items`
call per chunk, in order, stopping at the first raised exception. Returns
the list of chunks actually sent and the overall outcome (`ok true`
mirrors the `return True` after the loop). -/
def spotifyAddLoop (call : List String → Except String Unit) :
    List (List String) → List (List String) × Except String Bool
  | [] => ([], Except.ok true)
  | c :: rest =>
    match call c with
    | Except.error e => ([c], Except.error e)
    | Except.ok _ =>
      let r := spotifyAddLoop call rest
      (c :: r.1, r.2)

namespace SpotifyAdapter

/-- Embeds `SpotifyAdapter.authenticate`: resolve the three credential fields with
environment fallback; with any field missing the raised `ValueError` is
caught and `False` returned; otherwise `self.sp` is set to the constructed
client and `True` returned. -/
def authenticate (st : SpotifyState) (credentials osenv : String → Option String)
    (client : SpotifyBackend) : SpotifyState × Bool :=
  let client_id := pyOrStr (credentials "client_id") (osenv "SPOTIFY_CLIENT_ID")
  let client_secret := pyOrStr (credentials "client_secret") (osenv "SPOTIFY_CLIENT_SECRET")
  let redirect_uri := pyOrStr (credentials "redirect_uri") (osenv "SPOTIFY_REDIRECT_URI")
  if pyTruthy client_id && pyTruthy client_secret && pyTruthy redirect_uri then
    ({ sp := some client }, true)
  else
    (st, false)

/-- Embeds `SpotifyAdapter.get_playlists`. -/
def get_playlists (st : SpotifyState) : Except String (List Playlist) :=
  match st.sp with
  | none => Except.error "Not authenticated with Spotify"
  | some sp =>
    Except.ok (sp.current_user_playlists.map (fun p =>
      { id := p.id, name := p.name, description := p.description.getD "",
        track_count := p.tracks_total, owner := p.owner_display_name }))

/-- Embeds `SpotifyAdapter.get_playlist_tracks`: null tracks in the response are
skipped (`if track:`). -/
def get_playlist_tracks (st : SpotifyState) (playlist_id : String) :
    Except String (List Track) :=
  match st.sp with
  | none => Except.error "Not authenticated with Spotify"
  | some sp =>
    Except.ok (((sp.playlist_tracks playlist_id).filterMap id).map (fun t =>
      { id := t.id, name := t.name, artist := t.artist0_name,
        album := t.album_name, uri := t.uri }))

/-- Embeds `SpotifyAdapter.create_playlist`. -/
def create_playlist (st : SpotifyState) (name description : String) :
    Except String String :=
  match st.sp with
  | none => Except.error "Not authenticated with Spotify"
  | some sp => Except.ok (sp.user_playlist_create sp.current_user_id name description)

/-- Embeds `SpotifyAdapter.add_tracks_to_playlist`: chunk size 100, one backend
call per chunk; any raised exception propagates, otherwise `True`. The
first component records the chunks actually sent to the backend. -/
def add_tracks_to_playlist (st : SpotifyState) (playlist_id : String)
    (track_uris : List String) : List (List String) × Except String Bool :=
  match st.sp with
  | none => ([], Except.error "Not authenticated with Spotify")
  | some sp => spotifyAddLoop (sp.playlist_add_items playlist_id) (chunkList 100 track_uris)

end SpotifyAdapter

/-! ### Chunking lemmas -/

theorem chunkList_nil {α : Type} (n : Nat) : chunkList n ([] : List α) = [] := by
  simp [chunkList]

theorem chunkList_cons {α : Type} (n : Nat) (hn : n ≠ 0) (x : α) (xs : List α) :
    chunkList n (x :: xs) = (x :: xs).take n :: chunkList n ((x :: xs).drop n) := by
  rw [chunkList]
  simp [hn]

/-- Concatenating the chunks gives back the original list. -/
theorem chunkList_flatten {α : Type} (n : Nat) (hn : n ≠ 0) (l : List α) :
    (chunkList n l).flatten = l := by
  generalize hk : l.length = k
  induction k using Nat.strong_induction_on generalizing l with
  | _ k ih =>
    cases l with
    | nil => simp [chunkList_nil]
    | cons x xs =>
      rw [chunkList_cons n hn x xs]
      simp only [List.flatten_cons]
      rw [ih ((x :: xs).drop n).length _ _ rfl, List.take_append_drop]
      subst hk
      simp only [List.length_drop, List.length_cons]
      omega

theorem chunkList_zero {α : Type} (l : List α) : chunkList 0 l = [] := by
  rw [chunkList.eq_def]
  simp

/-- Every chunk has size at most `n`. -/
theorem chunkList_size {α : Type} (n : Nat) (l : List α) :
    ∀ c ∈ chunkList n l, c.length ≤ n := by
  generalize hk : l.length = k
  induction k using Nat.strong_induction_on generalizing l with
  | _ k ih =>
    by_cases hn : n = 0
    · subst hn
      intro c hc
      rw [chunkList_zero] at hc
      simp at hc
    cases l with
    | nil => simp [chunkList_nil]
    | cons x xs =>
      rw [chunkList_cons n hn x xs]
      intro c hc
      rcases List.mem_cons.mp hc with h | h
      · subst h
        simp
      · refine ih ((x :: xs).drop n).length ?_ _ rfl c h
        subst hk
        simp only [List.length_drop, List.length_cons]
        omega

/-- The number of chunks is `⌈l.length / n⌉`. -/
theorem chunkList_length {α : Type} (n : Nat) (hn : n ≠ 0) (l : List α) :
    (chunkList n l).length = (l.length + n - 1) / n := by
  generalize hk : l.length = k
  induction k using Nat.strong_induction_on generalizing l with
  | _ k ih =>
    cases l with
    | nil =>
      rw [chunkList_nil]
      subst hk
      simp only [List.length_nil, List.length_nil, Nat.zero_add]
      rw [Nat.div_eq_of_lt (by omega)]
    | cons x xs =>
      subst hk
      rw [chunkList_cons n hn x xs]
      simp only [List.length_cons]
      have hdrop : ((x :: xs).drop n).length = xs.length + 1 - n := by
        simp only [List.length_drop, List.length_cons]
      have ihl := ih ((x :: xs).drop n).length
        (by simp only [List.length_drop, List.length_cons]; omega) _ rfl
      rw [ihl, hdrop]
      have hrhs : xs.length + 1 + n - 1 = xs.length + n := by omega
      rw [hrhs, Nat.add_div_right _ (by omega)]
      rcases Nat.lt_or_ge xs.length n with hlt | hge
      · have h1 : xs.length + 1 - n = 0 := by omega
        rw [h1]
        simp only [Nat.zero_add]
        rw [Nat.div_eq_of_lt (by omega), Nat.div_eq_of_lt (by omega)]
      · have h2 : xs.length + 1 - n + n - 1 = xs.length - n + n := by omega
        rw [h2, Nat.add_div_right _ (by omega)]
        have h5 : xs.length / n = (xs.length - n) / n + 1 := by
          conv_lhs => rw [show xs.length = xs.length - n + n from by omega]
          rw [Nat.add_div_right _ (by omega)]
        rw [h5]

/-- If every chunk's call succeeds, the loop sends every chunk and returns `true`. -/
theorem spotifyAddLoop_all_ok (call : List String → Except String Unit)
    (chunks : List (List String)) (h : ∀ c ∈ chunks, call c = Except.ok ()) :
    spotifyAddLoop call chunks = (chunks, Except.ok true) := by
  induction chunks with
  | nil => rfl
  | cons c rest ih =>
    have hc : call c = Except.ok () := h c (List.mem_cons_self c rest)
    simp only [spotifyAddLoop, hc]
    rw [ih (fun d hd => h d (List.mem_cons_of_mem c hd))]

/-- If the loop reports `true`, every chunk's call succeeded. -/
theorem spotifyAddLoop_ok_true (call : List String → Except String Unit)
    (chunks : List (List String)) (h : (spotifyAddLoop call chunks).2 = Except.ok true) :
    ∀ c ∈ chunks, call c = Except.ok () := by
  induction chunks with
  | nil => simp
  | cons c rest ih =>
    intro d hd
    rcases hcall : call c with e | u
    · rw [spotifyAddLoop, hcall] at h
      simp at h
    · rw [spotifyAddLoop, hcall] at h
      rcases List.mem_cons.mp hd with hdc | hdr
      · subst hdc
        cases u
        exact hcall
      · exact ih h d hdr

/-! ## YouTube Music adapter (`YouTubeMusicAdapter`) -/

/-- A playlist object as returned by the `get_library_playlists` call of
`ytmusicapi`; `count` and `author` are read with defaulted get calls. -/
structure YTMApiPlaylist where
  playlistId : String
  title : String
  description : Option String
  count : Option Nat
  author : Option String

/-- A track object as returned by the `get_playlist` call of `ytmusicapi`;
`artists` is the list of artist names (the code uses the first, or the
Unknown placeholder when empty); `album_name` models the defaulted album
name lookup. -/
structure YTMApiTrack where
  videoId : String
  title : String
  artists : List String
  album_name : Option String

/-- The `ytmusicapi.YTMusic` client held in `self.ytm`, as response
oracles; an `Except.error` models a raised exception in the API call. -/
structure YTMBackend where
  get_library_playlists : Except String (List YTMApiPlaylist)
  get_playlist : String → Except String (List YTMApiTrack)
  create_playlist : String → String → Except String String
  add_playlist_items : String → List String → Except String Unit

/-- Mutable state of a `YouTubeMusicAdapter` instance: `self.ytm`,
`None` until `authenticate` constructs the client. -/
structure YTMState where
  ytm : Option YTMBackend

namespace YouTubeMusicAdapter

/-- Embeds `YouTubeMusicAdapter.authenticate`: constructs an anonymous
`YTMusic()` client; a raised constructor exception is caught and `False`
returned. -/
def authenticate (st : YTMState) (ctor : Except String YTMBackend) :
    YTMState × Bool :=
  match ctor with
  | Except.error _ => (st, false)
  | Except.ok b => ({ ytm := some b }, true)

/-- Embeds `YouTubeMusicAdapter.get_playlists`: a raised API exception is caught
and an empty list returned. -/
def get_playlists (st : YTMState) : Except String (List Playlist) :=
  match st.ytm with
  | none => Except.error "Not authenticated with YouTube Music"
  | some ytm =>
    match ytm.get_library_playlists with
    | Except.error _ => Except.ok []
    | Except.ok ps =>
      Except.ok (ps.map (fun p =>
        { id := p.playlistId, name := p.title, description := p.description.getD "",
          track_count := p.count.getD 0, owner := p.author.getD "Unknown" }))

/-- Embeds `YouTubeMusicAdapter.get_playlist_tracks`: a raised API exception is
caught and an empty list returned. -/
def get_playlist_tracks (st : YTMState) (playlist_id : String) :
    Except String (List Track) :=
  match st.ytm with
  | none => Except.error "Not authenticated with YouTube Music"
  | some ytm =>
    match ytm.get_playlist playlist_id with
    | Except.error _ => Except.ok []
    | Except.ok ts =>
      Except.ok (ts.map (fun t =>
        { id := t.videoId, name := t.title,
          artist := match t.artists with | [] => "Unknown" | a :: _ => a,
          album := t.album_name.getD "Unknown",
          uri := "youtube://" ++ t.videoId }))

/-- Embeds `YouTubeMusicAdapter.create_playlist`: a raised API exception is
re-raised (`raise` in the `except` block). -/
def create_playlist (st : YTMState) (name description : String) :
    Except String String :=
  match st.ytm with
  | none => Except.error "Not authenticated with YouTube Music"
  | some ytm => ytm.create_playlist name description

/-- The filtering step of `add_tracks_to_playlist`: keep only references
that start with youtube://. -/
def videoIdFilter (track_ids : List String) : List String :=
  track_ids.filter (fun track_id => strStartsWith track_id "youtube://")

/-- Embeds `YouTubeMusicAdapter.add_tracks_to_playlist`: filters the references,
forwards the survivors in a single `add_playlist_items` call, returns
`True` on success; a raised API exception is caught and `False` returned. -/
def add_tracks_to_playlist (st : YTMState) (playlist_id : String)
    (track_ids : List String) : Except String Bool :=
  match st.ytm with
  | none => Except.error "Not authenticated with YouTube Music"
  | some ytm =>
    match ytm.add_playlist_items playlist_id (videoIdFilter track_ids) with
    | Except.error _ => Except.ok false
    | Except.ok _ => Except.ok true

end YouTubeMusicAdapter

/-! ## Amazon Music adapter (`AmazonMusicAdapter`) -/

/-- Mutable state of an `AmazonMusicAdapter` instance: `self.session`
(a `requests.Session`, carrying no observable data here),
`self.access_token` and `self.base_url`. -/
structure AmazonState where
  session : Option Unit
  access_token : Option String
  base_url : String

/-- The freshly constructed `AmazonMusicAdapter` (its `__init__`). -/
def amazonInit : AmazonState :=
  { session := none, access_token := none, base_url := "https://api.amazon.com/music" }

namespace AmazonMusicAdapter

/-- Embeds `AmazonMusicAdapter.authenticate`: resolve `client_id`/`client_secret`
with environment fallback; if either is falsy the raised `ValueError` is
caught and `False` returned (before `self.session` is assigned);
otherwise the session and placeholder token are stored and `True` returned. -/
def authenticate (st : AmazonState) (credentials osenv : String → Option String) :
    AmazonState × Bool :=
  let client_id := pyOrStr (credentials "client_id") (osenv "AMAZON_CLIENT_ID")
  let client_secret := pyOrStr (credentials "client_secret") (osenv "AMAZON_CLIENT_SECRET")
  if pyTruthy client_id && pyTruthy client_secret then
    ({ st with session := some (), access_token := some "placeholder_token" }, true)
  else
    (st, false)

/-- Embeds `AmazonMusicAdapter.get_playlists`: fixed placeholder data. -/
def get_playlists (st : AmazonState) : Except String (List Playlist) :=
  match st.session with
  | none => Except.error "Not authenticated with Amazon Music"
  | some _ =>
    Except.ok [{ id := "amazon_playlist_1", name := "Sample Amazon Playlist",
                 description := "This is a placeholder playlist",
                 track_count := 0, owner := "Amazon Music User" }]

/-- Embeds `AmazonMusicAdapter.get_playlist_tracks`: placeholder empty list. -/
def get_playlist_tracks (st : AmazonState) (_playlist_id : String) :
    Except String (List Track) :=
  match st.session with
  | none => Except.error "Not authenticated with Amazon Music"
  | some _ => Except.ok []

/-- Embeds `AmazonMusicAdapter.create_playlist`: returns the string
amazon_playlist_ followed by the integer part of time.time(); the
current Unix time is the explicit parameter `now`. -/
def create_playlist (st : AmazonState) (_name _description : String) (now : Nat) :
    Except String String :=
  match st.session with
  | none => Except.error "Not authenticated with Amazon Music"
  | some _ => Except.ok ("amazon_playlist_" ++ toString now)

/-- Embeds `AmazonMusicAdapter.add_tracks_to_playlist`: placeholder success. -/
def add_tracks_to_playlist (st : AmazonState) (_playlist_id : String)
    (_track_ids : List String) : Except String Bool :=
  match st.session with
  | none => Except.error "Not authenticated with Amazon Music"
  | some _ => Except.ok true

end AmazonMusicAdapter

/-! ## Orchestrator (`MusicTransferTool`) -/

/-- One transfer task record: the dict held in `self.transfer_tasks[task_id]`. -/
structure TransferTask where
  status : String
  progress : Nat
  message : String
deriving DecidableEq, Repr

/-- The record inserted by `transfer_playlist` when a task is created. -/
def initialTask : TransferTask :=
  { status := "pending", progress := 0, message := "Starting transfer..." }

/-- The dict returned by a successful `transfer_playlist` call. -/
structure StartResp where
  task_id : String
  status : String
  message : String
deriving DecidableEq, Repr

/-- The keys of `self.platforms` set up in `MusicTransferTool.__init__`. -/
def supportedPlatforms : List String := ["spotify", "youtube_music", "amazon_music"]

/-- Mutable state of the tool: the `self.transfer_tasks` map, as an
association list in insertion order (keys are fresh UUIDs, so unique). -/
structure ToolState where
  transfer_tasks : List (String × TransferTask)

/-- What `get_transfer_status` returns: either the error dict carrying
the Task not found message, or the task record. -/
inductive StatusResult where
  | err (msg : String)
  | task (t : TransferTask)
deriving DecidableEq, Repr

namespace MusicTransferTool

/-- Embeds `MusicTransferTool.get_playlists`: platform validation, then adapter
authentication, then the adapter's playlist query. The adapter's
behaviour for this call is abstracted by `authOk` (result of
`adapter.authenticate(credentials)`) and `adapterResult` (result of
`adapter.get_playlists()`). -/
def get_playlists (platform : String) (authOk : Bool)
    (adapterResult : Except String (List Playlist)) : Except String (List Playlist) :=
  if platform ∉ supportedPlatforms then
    Except.error ("Unsupported platform: " ++ platform)
  else if !authOk then
    Except.error ("Failed to authenticate with " ++ platform)
  else
    adapterResult

/-- Embeds `MusicTransferTool.transfer_playlist`: validate both platform ids,
then insert a fresh `pending` task and schedule the background body.
The generated `uuid.uuid4()` is the explicit parameter `task_id`. -/
def transfer_playlist (st : ToolState) (source_platform destination_platform : String)
    (_playlist_id : String) (task_id : String) : ToolState × Except String StartResp :=
  if source_platform ∉ supportedPlatforms then
    (st, Except.error ("Unsupported source platform: " ++ source_platform))
  else if destination_platform ∉ supportedPlatforms then
    (st, Except.error ("Unsupported destination platform: " ++ destination_platform))
  else
    ({ transfer_tasks := st.transfer_tasks ++ [(task_id, initialTask)] },
     Except.ok { task_id := task_id, status := "started",
                 message := "Transfer started successfully" })

/-- Embeds `MusicTransferTool.get_transfer_status`. -/
def get_transfer_status (st : ToolState) (task_id : String) : StatusResult :=
  match st.transfer_tasks.lookup task_id with
  | none => StatusResult.err "Task not found"
  | some t => StatusResult.task t

end MusicTransferTool

/-! ## The background transfer body (`_perform_transfer`) -/

/-- The outcomes of the external calls one execution of
`_perform_transfer` makes, in the order the code makes them.
`Except.error e` models a raised exception with text `e`;
`Except.ok false` from an `authenticate`/`add_tracks_to_playlist`
models the call returning `False`. -/
structure TransferEnv where
  sourceAuth : Except String Bool
  sourcePlaylists : Except String (List Playlist)
  sourceTracks : Except String (List Track)
  destAuth : Except String Bool
  createPlaylist : Except String String
  addTracks : Except String Bool

/-- External calls the transfer body can make, with the arguments that
reach the adapters. -/
inductive ExtCall where
  | authSource
  | getPlaylists
  | getTracks (playlist_id : String)
  | authDest
  | createPlaylist (name description : String)
  | addTracks (dest_playlist_id : String) (track_uris : List String)
deriving DecidableEq, Repr

/-- One observable event of the transfer body: a write to the task
record (`self.transfer_tasks[task_id][...] = ...`) or an external call. -/
inductive Ev where
  | setStatus (s : String)
  | setProgress (p : Nat)
  | setMessage (m : String)
  | call (c : ExtCall)
deriving DecidableEq, Repr

/-- The `except` clause of `_perform_transfer`: record failure. -/
def failEvents (e : String) : List Ev :=
  [Ev.setStatus "failed", Ev.setMessage ("Transfer failed: " ++ e)]

/-- The event trace of one execution of
`MusicTransferTool._perform_transfer`, against the call outcomes in
`env`. Any raised exception jumps to `failEvents`; `authenticate`
returning `False` and `add_tracks_to_playlist` returning `False` raise
`ValueError` with the messages from the code. -/
def performTransfer (env : TransferEnv)
    (source_platform destination_platform playlist_id : String) : List Ev :=
  [Ev.setStatus "running", Ev.setProgress 10,
   Ev.setMessage "Authenticating with source platform...",
   Ev.call ExtCall.authSource] ++
  match env.sourceAuth with
  | Except.error e => failEvents e
  | Except.ok false => failEvents ("Failed to authenticate with " ++ source_platform)
  | Except.ok true =>
    [Ev.setProgress 20, Ev.setMessage "Getting playlist information...",
     Ev.call ExtCall.getPlaylists] ++
    match env.sourcePlaylists with
    | Except.error e => failEvents e
    | Except.ok playlists =>
      match playlists.find? (fun p => p.id == playlist_id) with
      | none => failEvents ("Playlist " ++ playlist_id ++ " not found")
      | some playlist_info =>
        Ev.call (ExtCall.getTracks playlist_id) ::
        match env.sourceTracks with
        | Except.error e => failEvents e
        | Except.ok tracks =>
          [Ev.setProgress 40,
           Ev.setMessage ("Found " ++ toString tracks.length ++
             " tracks. Authenticating with destination platform..."),
           Ev.call ExtCall.authDest] ++
          match env.destAuth with
          | Except.error e => failEvents e
          | Except.ok false =>
            failEvents ("Failed to authenticate with " ++ destination_platform)
          | Except.ok true =>
            [Ev.setProgress 60, Ev.setMessage "Creating destination playlist...",
             Ev.call (ExtCall.createPlaylist playlist_info.name playlist_info.description)] ++
            match env.createPlaylist with
            | Except.error e => failEvents e
            | Except.ok dest_playlist_id =>
              [Ev.setProgress 80, Ev.setMessage "Adding tracks to destination playlist...",
               Ev.call (ExtCall.addTracks dest_playlist_id (tracks.map Track.uri))] ++
              match env.addTracks with
              | Except.error e => failEvents e
              | Except.ok false => failEvents "Failed to add tracks to destination playlist"
              | Except.ok true =>
                [Ev.setStatus "completed", Ev.setProgress 100,
                 Ev.setMessage ("Successfully transferred " ++ toString tracks.length ++
                   " tracks!")]

/-- Apply one event to the task record (calls do not touch the record). -/
def applyEv (t : TransferTask) : Ev → TransferTask
  | Ev.setStatus s => { t with status := s }
  | Ev.setProgress p => { t with progress := p }
  | Ev.setMessage m => { t with message := m }
  | Ev.call _ => t

/-- The task record after the transfer body finishes, starting from the
record `transfer_playlist` inserted. -/
def runTransfer (env : TransferEnv)
    (source_platform destination_platform playlist_id : String) : TransferTask :=
  (performTransfer env source_platform destination_platform playlist_id).foldl
    applyEv initialTask

/-- The successive values written to the `progress` field by a trace. -/
def progressWrites (evs : List Ev) : List Nat :=
  evs.filterMap (fun e => match e with | Ev.setProgress p => some p | _ => none)

/-- A list of naturals is monotonically non-decreasing. -/
def nondecreasing : List Nat → Bool
  | [] => true
  | [_] => true
  | a :: b :: rest => decide (a ≤ b) && nondecreasing (b :: rest)

/-! ## Helper lemmas -/

theorem progressWrites_append (a b : List Ev) :
    progressWrites (a ++ b) = progressWrites a ++ progressWrites b := by
  simp [progressWrites]

theorem progressWrites_failEvents (e : String) : progressWrites (failEvents e) = [] := rfl

theorem lookup_eq_none_iff (l : List (String × TransferTask)) (k : String) :
    l.lookup k = none ↔ k ∉ l.map Prod.fst := by
  induction l with
  | nil => simp
  | cons p rest ih =>
    cases p with
    | mk a b =>
      rcases hak : (k == a) with hf | ht
      · simp only [List.lookup, hak, List.map_cons, List.mem_cons]
        rw [ih]
        have : ¬ k = a := by simpa using hak
        tauto
      · simp only [List.lookup, hak, List.map_cons, List.mem_cons]
        have : k = a := by simpa using hak
        tauto

/-- A key found in the association list contradicts non-membership. -/
theorem lookup_some_of_mem (l : List (String × TransferTask)) (k : String) (t : TransferTask)
    (h : l.lookup k = some t) : k ∈ l.map Prod.fst := by
  by_contra hk
  rw [← lookup_eq_none_iff] at hk
  rw [h] at hk
  cases hk

/-! ## Claim theorems -/

/-- C1: `transfer_playlist` validates both platform ids against the
registry before creating any task: with an unknown source or destination
platform it fails synchronously with the `Unsupported ... platform`
`ValueError` and leaves the task map unchanged (no task record is
inserted); `get_playlists` likewise fails with `Unsupported platform`
for an unknown platform id. -/
theorem unsupported_platform_fails_fast (st : ToolState)
    (src dst pid tid p : String) (authOk : Bool) (r : Except String (List Playlist)) :
    (src ∉ supportedPlatforms →
      MusicTransferTool.transfer_playlist st src dst pid tid =
        (st, Except.error ("Unsupported source platform: " ++ src))) ∧
    (src ∈ supportedPlatforms → dst ∉ supportedPlatforms →
      MusicTransferTool.transfer_playlist st src dst pid tid =
        (st, Except.error ("Unsupported destination platform: " ++ dst))) ∧
    (p ∉ supportedPlatforms →
      MusicTransferTool.get_playlists p authOk r =
        Except.error ("Unsupported platform: " ++ p)) := by
  refine ⟨fun hsrc => ?_, fun hsrc hdst => ?_, fun hp => ?_⟩
  · simp [MusicTransferTool.transfer_playlist, hsrc]
  · simp [MusicTransferTool.transfer_playlist, hsrc, hdst]
  · simp [MusicTransferTool.get_playlists, hp]

/-- Witness for C1 at concrete inputs: platform `deezer` is unknown. -/
theorem unsupported_platform_fails_fast_witness :
    MusicTransferTool.transfer_playlist ⟨[]⟩ "deezer" "spotify" "p1" "t1" =
      (⟨[]⟩, Except.error ("Unsupported source platform: " ++ "deezer")) ∧
    MusicTransferTool.transfer_playlist ⟨[]⟩ "spotify" "deezer" "p1" "t1" =
      (⟨[]⟩, Except.error ("Unsupported destination platform: " ++ "deezer")) ∧
    MusicTransferTool.get_playlists "deezer" true (Except.ok []) =
      Except.error ("Unsupported platform: " ++ "deezer") :=
  ⟨(unsupported_platform_fails_fast ⟨[]⟩ "deezer" "spotify" "p1" "t1" "deezer" true
      (Except.ok [])).1 (by decide),
   (unsupported_platform_fails_fast ⟨[]⟩ "spotify" "deezer" "p1" "t1" "deezer" true
      (Except.ok [])).2.1 (by decide) (by decide),
   (unsupported_platform_fails_fast ⟨[]⟩ "spotify" "spotify" "p1" "t1" "deezer" true
      (Except.ok [])).2.2 (by decide)⟩

/-- C6: `get_transfer_status` returns the `Task not found` error value
exactly when the id is not a key of the task map, and otherwise returns
the task's current record; the lookup is a pure function of the map. -/
theorem get_transfer_status_spec (st : ToolState) (tid : String) :
    (MusicTransferTool.get_transfer_status st tid = StatusResult.err "Task not found" ↔
      tid ∉ st.transfer_tasks.map Prod.fst) ∧
    (∀ t, st.transfer_tasks.lookup tid = some t →
      MusicTransferTool.get_transfer_status st tid = StatusResult.task t) := by
  constructor
  · rcases h : st.transfer_tasks.lookup tid with _ | t
    · rw [lookup_eq_none_iff] at h
      simp [MusicTransferTool.get_transfer_status, h]
      rw [← lookup_eq_none_iff] at h
      simp [h]
    · have hm := lookup_some_of_mem _ _ _ h
      simp [MusicTransferTool.get_transfer_status, h, hm]
  · intro t h
    simp [MusicTransferTool.get_transfer_status, h]

/-- Witness for C6: a never-issued id yields the error value, an issued
id yields its record. -/
theorem get_transfer_status_spec_witness :
    (MusicTransferTool.get_transfer_status ⟨[("t1", initialTask)]⟩ "t2" =
        StatusResult.err "Task not found" ↔ ("t2" : String) ∉ ["t1"]) ∧
    MusicTransferTool.get_transfer_status ⟨[("t1", initialTask)]⟩ "t1" =
      StatusResult.task initialTask :=
  ⟨(get_transfer_status_spec ⟨[("t1", initialTask)]⟩ "t2").1,
   (get_transfer_status_spec ⟨[("t1", initialTask)]⟩ "t1").2 initialTask rfl⟩

/-- C5: `SpotifyAdapter.add_tracks_to_playlist` splits the `n` track URIs
into `⌈n/100⌉` contiguous chunks of at most 100 each, issues one backend
`playlist_add_items` call per chunk in list order, and returns `True`
exactly when every chunk's call succeeds; with a batch limit of 2, five
tracks give 3 chunks. -/
theorem spotify_add_tracks_chunking (b : SpotifyBackend) (st : SpotifyState)
    (pid : String) (uris : List String) (hst : st.sp = some b) :
    (chunkList 100 uris).length = (uris.length + 99) / 100 ∧
    (∀ c ∈ chunkList 100 uris, c.length ≤ 100) ∧
    (chunkList 100 uris).flatten = uris ∧
    ((∀ c ∈ chunkList 100 uris, b.playlist_add_items pid c = Except.ok ()) →
      SpotifyAdapter.add_tracks_to_playlist st pid uris =
        (chunkList 100 uris, Except.ok true)) ∧
    ((SpotifyAdapter.add_tracks_to_playlist st pid uris).2 = Except.ok true →
      ∀ c ∈ chunkList 100 uris, b.playlist_add_items pid c = Except.ok ()) ∧
    (chunkList 2 ["t1", "t2", "t3", "t4", "t5"]).length = 3 := by
  refine ⟨?_, chunkList_size 100 uris, chunkList_flatten 100 (by omega) uris,
    fun h => ?_, fun h => ?_, ?_⟩
  · rw [chunkList_length 100 (by omega) uris]
    have : uris.length + 100 - 1 = uris.length + 99 := by omega
    rw [this]
  · rw [SpotifyAdapter.add_tracks_to_playlist, hst]
    exact spotifyAddLoop_all_ok _ _ h
  · rw [SpotifyAdapter.add_tracks_to_playlist, hst] at h
    exact spotifyAddLoop_ok_true _ _ h
  · rw [chunkList_length 2 (by omega)]
    rfl

/-- Witness for C5: an always-succeeding backend and 5 one-character URIs. -/
theorem spotify_add_tracks_chunking_witness :
    SpotifyAdapter.add_tracks_to_playlist
        ⟨some { current_user_playlists := [], playlist_tracks := fun _ => [],
                current_user_id := "u", user_playlist_create := fun _ _ _ => "x",
                playlist_add_items := fun _ _ => Except.ok () }⟩ "p"
        ["a", "b", "c", "d", "e"] =
      (chunkList 100 ["a", "b", "c", "d", "e"], Except.ok true) :=
  (spotify_add_tracks_chunking
      { current_user_playlists := [], playlist_tracks := fun _ => [],
        current_user_id := "u", user_playlist_create := fun _ _ _ => "x",
        playlist_add_items := fun _ _ => Except.ok () }
      ⟨some { current_user_playlists := [], playlist_tracks := fun _ => [],
              current_user_id := "u", user_playlist_create := fun _ _ _ => "x",
              playlist_add_items := fun _ _ => Except.ok () }⟩
      "p" ["a", "b", "c", "d", "e"] rfl).2.2.2.1 (fun _ _ => rfl)

/-- C7: every data operation of each of the three adapters, called on a
not-yet-authenticated instance, fails with the explicit
`Not authenticated with <platform>` `ValueError` instead of crashing or
proceeding; the data operations never mutate the authentication state,
so this holds regardless of the order of prior non-authenticate calls. -/
theorem ops_before_authenticate_fail
    (ss : SpotifyState) (ys : YTMState) (az : AmazonState)
    (pid nm desc : String) (ids : List String) (now : Nat)
    (hs : ss.sp = none) (hy : ys.ytm = none) (ha : az.session = none) :
    SpotifyAdapter.get_playlists ss = Except.error "Not authenticated with Spotify" ∧
    SpotifyAdapter.get_playlist_tracks ss pid =
      Except.error "Not authenticated with Spotify" ∧
    SpotifyAdapter.create_playlist ss nm desc =
      Except.error "Not authenticated with Spotify" ∧
    SpotifyAdapter.add_tracks_to_playlist ss pid ids =
      ([], Except.error "Not authenticated with Spotify") ∧
    YouTubeMusicAdapter.get_playlists ys =
      Except.error "Not authenticated with YouTube Music" ∧
    YouTubeMusicAdapter.get_playlist_tracks ys pid =
      Except.error "Not authenticated with YouTube Music" ∧
    YouTubeMusicAdapter.create_playlist ys nm desc =
      Except.error "Not authenticated with YouTube Music" ∧
    YouTubeMusicAdapter.add_tracks_to_playlist ys pid ids =
      Except.error "Not authenticated with YouTube Music" ∧
    AmazonMusicAdapter.get_playlists az =
      Except.error "Not authenticated with Amazon Music" ∧
    AmazonMusicAdapter.get_playlist_tracks az pid =
      Except.error "Not authenticated with Amazon Music" ∧
    AmazonMusicAdapter.create_playlist az nm desc now =
      Except.error "Not authenticated with Amazon Music" ∧
    AmazonMusicAdapter.add_tracks_to_playlist az pid ids =
      Except.error "Not authenticated with Amazon Music" := by
  refine ⟨?_, ?_, ?_, ?_, ?_, ?_, ?_, ?_, ?_, ?_, ?_, ?_⟩ <;>
    simp [SpotifyAdapter.get_playlists, SpotifyAdapter.get_playlist_tracks,
      SpotifyAdapter.create_playlist, SpotifyAdapter.add_tracks_to_playlist,
      YouTubeMusicAdapter.get_playlists, YouTubeMusicAdapter.get_playlist_tracks,
      YouTubeMusicAdapter.create_playlist, YouTubeMusicAdapter.add_tracks_to_playlist,
      AmazonMusicAdapter.get_playlists, AmazonMusicAdapter.get_playlist_tracks,
      AmazonMusicAdapter.create_playlist, AmazonMusicAdapter.add_tracks_to_playlist,
      hs, hy, ha]

/-- Witness for C7: freshly constructed adapter states. -/
theorem ops_before_authenticate_fail_witness :
    SpotifyAdapter.get_playlists ⟨none⟩ =
      Except.error "Not authenticated with Spotify" ∧
    YouTubeMusicAdapter.add_tracks_to_playlist ⟨none⟩ "p" ["i"] =
      Except.error "Not authenticated with YouTube Music" ∧
    AmazonMusicAdapter.create_playlist amazonInit "n" "d" 0 =
      Except.error "Not authenticated with Amazon Music" :=
  have h := ops_before_authenticate_fail ⟨none⟩ ⟨none⟩ amazonInit
    "p" "n" "d" ["i"] 0 rfl rfl rfl
  ⟨h.1, h.2.2.2.2.2.2.2.1, h.2.2.2.2.2.2.2.2.2.2.1⟩

/-- C8 (counterexample): `AmazonMusicAdapter.create_playlist` is not
deterministic across calls with the same arguments — its result embeds
`int(time.time())`, so the same authenticated state and arguments give
different ids at different call times. -/
theorem amazon_create_playlist_time_dependent :
    AmazonMusicAdapter.create_playlist
        { session := some (), access_token := some "placeholder_token",
          base_url := "https://api.amazon.com/music" } "My Playlist" "" 100 ≠
      AmazonMusicAdapter.create_playlist
        { session := some (), access_token := some "placeholder_token",
          base_url := "https://api.amazon.com/music" } "My Playlist" "" 101 := by
  intro h
  rw [AmazonMusicAdapter.create_playlist, AmazonMusicAdapter.create_playlist] at h
  exact absurd (Except.ok.inj h) (by decide)

/-- C8 (amended): `AmazonMusicAdapter.authenticate` returns `True` for
every credentials mapping whose `client_id` and `client_secret` resolve
(directly or through the environment) to non-empty values, and the data
operations return fixed placeholder values without contacting a backend
— except that the placeholder id of `create_playlist` embeds the current
Unix time, so it is deterministic only for a fixed call time. -/
theorem amazon_stub_behaviour (st : AmazonState)
    (credentials osenv : String → Option String)
    (pid nm desc : String) (ids : List String) (now : Nat)
    (hid : pyTruthy (pyOrStr (credentials "client_id") (osenv "AMAZON_CLIENT_ID")) = true)
    (hsec : pyTruthy (pyOrStr (credentials "client_secret")
      (osenv "AMAZON_CLIENT_SECRET")) = true)
    (hsession : st.session = some ()) :
    (AmazonMusicAdapter.authenticate st credentials osenv).2 = true ∧
    AmazonMusicAdapter.get_playlists st =
      Except.ok [{ id := "amazon_playlist_1", name := "Sample Amazon Playlist",
                   description := "This is a placeholder playlist",
                   track_count := 0, owner := "Amazon Music User" }] ∧
    AmazonMusicAdapter.get_playlist_tracks st pid = Except.ok [] ∧
    AmazonMusicAdapter.add_tracks_to_playlist st pid ids = Except.ok true ∧
    AmazonMusicAdapter.create_playlist st nm desc now =
      Except.ok ("amazon_playlist_" ++ toString now) := by
  refine ⟨?_, ?_, ?_, ?_, ?_⟩
  · rw [AmazonMusicAdapter.authenticate]
    simp [hid, hsec]
  · simp [AmazonMusicAdapter.get_playlists, hsession]
  · simp [AmazonMusicAdapter.get_playlist_tracks, hsession]
  · simp [AmazonMusicAdapter.add_tracks_to_playlist, hsession]
  · simp [AmazonMusicAdapter.create_playlist, hsession]

/-- Witness for C8 at concrete inputs: direct non-empty credentials and
an authenticated state. -/
theorem amazon_stub_behaviour_witness :
    (AmazonMusicAdapter.authenticate
        { session := some (), access_token := some "placeholder_token",
          base_url := "https://api.amazon.com/music" }
        (fun k => if k == "client_id" then some "id" else
          if k == "client_secret" then some "secret" else none)
        (fun _ => none)).2 = true ∧
    AmazonMusicAdapter.get_playlist_tracks
        { session := some (), access_token := some "placeholder_token",
          base_url := "https://api.amazon.com/music" } "p" = Except.ok [] ∧
    AmazonMusicAdapter.create_playlist
        { session := some (), access_token := some "placeholder_token",
          base_url := "https://api.amazon.com/music" } "n" "d" 100 =
      Except.ok ("amazon_playlist_" ++ toString (100 : Nat)) :=
  have h := amazon_stub_behaviour
    { session := some (), access_token := some "placeholder_token",
      base_url := "https://api.amazon.com/music" }
    (fun k => if k == "client_id" then some "id" else
      if k == "client_secret" then some "secret" else none)
    (fun _ => none) "p" "n" "d" [] 100 (by decide) (by decide) rfl
  ⟨h.1, h.2.2.1, h.2.2.2.2⟩

/-- C10: `YouTubeMusicAdapter.add_tracks_to_playlist` forwards to the
backend only the references starting with `youtube://`, and reports
`True` whenever that single backend call succeeds — even when the filter
drops every reference, so foreign-platform URIs are silently discarded
rather than reported as a failure. -/
theorem ytm_add_tracks_filters_foreign_uris (b : YTMBackend) (st : YTMState)
    (pid : String) (ids : List String) (hst : st.ytm = some b) :
    YouTubeMusicAdapter.videoIdFilter ids =
      ids.filter (fun track_id => strStartsWith track_id "youtube://") ∧
    YouTubeMusicAdapter.add_tracks_to_playlist st pid ids =
      (match b.add_playlist_items pid (YouTubeMusicAdapter.videoIdFilter ids) with
       | Except.ok _ => Except.ok true
       | Except.error _ => Except.ok false) ∧
    (b.add_playlist_items pid (YouTubeMusicAdapter.videoIdFilter ids) = Except.ok () →
      YouTubeMusicAdapter.add_tracks_to_playlist st pid ids = Except.ok true) ∧
    (YouTubeMusicAdapter.videoIdFilter ids = [] →
      b.add_playlist_items pid [] = Except.ok () →
      YouTubeMusicAdapter.add_tracks_to_playlist st pid ids = Except.ok true) := by
  refine ⟨rfl, ?_, fun h => ?_, fun hf h => ?_⟩
  · rcases h2 : b.add_playlist_items pid (YouTubeMusicAdapter.videoIdFilter ids) with e | u <;>
      simp [YouTubeMusicAdapter.add_tracks_to_playlist, hst, h2]
  · simp [YouTubeMusicAdapter.add_tracks_to_playlist, hst, h]
  · simp [YouTubeMusicAdapter.add_tracks_to_playlist, hst, hf, h]

/-- Witness for C10: two Spotify URIs are both filtered out, the backend
receives an empty list, and the adapter still reports success. -/
theorem ytm_add_tracks_filters_foreign_uris_witness :
    YouTubeMusicAdapter.videoIdFilter ["spotify:track:1", "spotify:track:2"] = [] ∧
    YouTubeMusicAdapter.add_tracks_to_playlist
        ⟨some { get_library_playlists := Except.ok [],
                get_playlist := fun _ => Except.ok [],
                create_playlist := fun _ _ => Except.ok "c",
                add_playlist_items := fun _ _ => Except.ok () }⟩
        "p" ["spotify:track:1", "spotify:track:2"] = Except.ok true :=
  ⟨by decide,
   (ytm_add_tracks_filters_foreign_uris
      { get_library_playlists := Except.ok [],
        get_playlist := fun _ => Except.ok [],
        create_playlist := fun _ _ => Except.ok "c",
        add_playlist_items := fun _ _ => Except.ok () }
      ⟨some { get_library_playlists := Except.ok [],
              get_playlist := fun _ => Except.ok [],
              create_playlist := fun _ _ => Except.ok "c",
              add_playlist_items := fun _ _ => Except.ok () }⟩
      "p" ["spotify:track:1", "spotify:track:2"] rfl).2.2.2 (by decide) rfl⟩

theorem find?_id_eq_none (ps : List Playlist) (pid : String)
    (h : pid ∉ ps.map Playlist.id) :
    ps.find? (fun p => p.id == pid) = none := by
  apply List.find?_eq_none.mpr
  intro x hx
  simp only [beq_iff_eq]
  intro heq
  exact h (List.mem_map.mpr ⟨x, hx, heq⟩)

theorem find?_id_exists (ps : List Playlist) (pid : String)
    (h : pid ∈ ps.map Playlist.id) :
    ∃ info, ps.find? (fun p => p.id == pid) = some info := by
  rcases hf : ps.find? (fun p => p.id == pid) with _ | info
  · exfalso
    rw [List.find?_eq_none] at hf
    rcases List.mem_map.mp h with ⟨x, hx, hid⟩
    exact hf x hx (by simp [hid])
  · exact ⟨info, hf⟩

/-- C4: when the requested playlist id is not among the ids the source
adapter returned, the transfer body stops before fetching tracks or
making any destination-platform call, and the task ends `failed` with
the `Playlist <id> not found` cause. -/
theorem playlist_not_found_fails_before_destination
    (env : TransferEnv) (sp dp pid : String) (ps : List Playlist)
    (h1 : env.sourceAuth = Except.ok true)
    (h2 : env.sourcePlaylists = Except.ok ps)
    (h3 : pid ∉ ps.map Playlist.id) :
    performTransfer env sp dp pid =
      [Ev.setStatus "running", Ev.setProgress 10,
       Ev.setMessage "Authenticating with source platform...",
       Ev.call ExtCall.authSource, Ev.setProgress 20,
       Ev.setMessage "Getting playlist information...",
       Ev.call ExtCall.getPlaylists, Ev.setStatus "failed",
       Ev.setMessage ("Transfer failed: " ++ ("Playlist " ++ pid ++ " not found"))] ∧
    (∀ q, Ev.call (ExtCall.getTracks q) ∉ performTransfer env sp dp pid) ∧
    Ev.call ExtCall.authDest ∉ performTransfer env sp dp pid ∧
    (∀ nm d, Ev.call (ExtCall.createPlaylist nm d) ∉ performTransfer env sp dp pid) ∧
    (∀ i us, Ev.call (ExtCall.addTracks i us) ∉ performTransfer env sp dp pid) ∧
    (runTransfer env sp dp pid).status = "failed" ∧
    (runTransfer env sp dp pid).message =
      "Transfer failed: " ++ ("Playlist " ++ pid ++ " not found") := by
  have hf := find?_id_eq_none ps pid h3
  have htrace : performTransfer env sp dp pid =
      [Ev.setStatus "running", Ev.setProgress 10,
       Ev.setMessage "Authenticating with source platform...",
       Ev.call ExtCall.authSource, Ev.setProgress 20,
       Ev.setMessage "Getting playlist information...",
       Ev.call ExtCall.getPlaylists, Ev.setStatus "failed",
       Ev.setMessage ("Transfer failed: " ++ ("Playlist " ++ pid ++ " not found"))] := by
    simp [performTransfer, h1, h2, hf, failEvents]
  refine ⟨htrace, fun q => ?_, ?_, fun nm d => ?_, fun i us => ?_, ?_, ?_⟩ <;>
    simp [htrace, runTransfer, applyEv]

/-- Witness for C4: one source playlist `other`, requested id `missing`. -/
theorem playlist_not_found_fails_before_destination_witness :
    (runTransfer
      { sourceAuth := Except.ok true,
        sourcePlaylists := Except.ok
          [{ id := "other", name := "O", description := "", track_count := 0,
             owner := "me" }],
        sourceTracks := Except.error "unused", destAuth := Except.error "unused",
        createPlaylist := Except.error "unused", addTracks := Except.error "unused" }
      "spotify" "youtube_music" "missing").status = "failed" ∧
    (runTransfer
      { sourceAuth := Except.ok true,
        sourcePlaylists := Except.ok
          [{ id := "other", name := "O", description := "", track_count := 0,
             owner := "me" }],
        sourceTracks := Except.error "unused", destAuth := Except.error "unused",
        createPlaylist := Except.error "unused", addTracks := Except.error "unused" }
      "spotify" "youtube_music" "missing").message =
      "Transfer failed: " ++ ("Playlist " ++ "missing" ++ " not found") :=
  have h := playlist_not_found_fails_before_destination
    { sourceAuth := Except.ok true,
      sourcePlaylists := Except.ok
        [{ id := "other", name := "O", description := "", track_count := 0,
           owner := "me" }],
      sourceTracks := Except.error "unused", destAuth := Except.error "unused",
      createPlaylist := Except.error "unused", addTracks := Except.error "unused" }
    "spotify" "youtube_music" "missing"
    [{ id := "other", name := "O", description := "", track_count := 0, owner := "me" }]
    rfl rfl (by decide)
  ⟨h.2.2.2.2.2.1, h.2.2.2.2.2.2⟩

/-- C9: when every stage succeeds — both authentications return `True`,
the playlist id is found, the source has `N` tracks, a destination
playlist id is created and `add_tracks_to_playlist` returns `True` — the
task ends `completed` with progress 100 and the success message carrying
the track count `N`. -/
theorem successful_transfer_completes
    (env : TransferEnv) (sp dp pid did : String) (ps : List Playlist) (ts : List Track)
    (h1 : env.sourceAuth = Except.ok true)
    (h2 : env.sourcePlaylists = Except.ok ps)
    (h3 : pid ∈ ps.map Playlist.id)
    (h4 : env.sourceTracks = Except.ok ts)
    (h5 : env.destAuth = Except.ok true)
    (h6 : env.createPlaylist = Except.ok did)
    (h7 : env.addTracks = Except.ok true) :
    (runTransfer env sp dp pid).status = "completed" ∧
    (runTransfer env sp dp pid).progress = 100 ∧
    (runTransfer env sp dp pid).message =
      "Successfully transferred " ++ toString ts.length ++ " tracks!" := by
  obtain ⟨info, hf⟩ := find?_id_exists ps pid h3
  refine ⟨?_, ?_, ?_⟩ <;>
    simp [runTransfer, performTransfer, h1, h2, h4, h5, h6, h7, hf, applyEv]

/-- Witness for C9: a 2-track source playlist transfers completely and
the success message contains the count 2. -/
theorem successful_transfer_completes_witness :
    (runTransfer
      { sourceAuth := Except.ok true,
        sourcePlaylists := Except.ok
          [{ id := "p1", name := "Mix", description := "", track_count := 2,
             owner := "me" }],
        sourceTracks := Except.ok
          [{ id := "a", name := "A", artist := "X", album := "L",
             uri := "spotify:track:a" },
           { id := "b", name := "B", artist := "Y", album := "M",
             uri := "spotify:track:b" }],
        destAuth := Except.ok true, createPlaylist := Except.ok "d1",
        addTracks := Except.ok true }
      "spotify" "youtube_music" "p1").status = "completed" ∧
    (runTransfer
      { sourceAuth := Except.ok true,
        sourcePlaylists := Except.ok
          [{ id := "p1", name := "Mix", description := "", track_count := 2,
             owner := "me" }],
        sourceTracks := Except.ok
          [{ id := "a", name := "A", artist := "X", album := "L",
             uri := "spotify:track:a" },
           { id := "b", name := "B", artist := "Y", album := "M",
             uri := "spotify:track:b" }],
        destAuth := Except.ok true, createPlaylist := Except.ok "d1",
        addTracks := Except.ok true }
      "spotify" "youtube_music" "p1").progress = 100 ∧
    (runTransfer
      { sourceAuth := Except.ok true,
        sourcePlaylists := Except.ok
          [{ id := "p1", name := "Mix", description := "", track_count := 2,
             owner := "me" }],
        sourceTracks := Except.ok
          [{ id := "a", name := "A", artist := "X", album := "L",
             uri := "spotify:track:a" },
           { id := "b", name := "B", artist := "Y", album := "M",
             uri := "spotify:track:b" }],
        destAuth := Except.ok true, createPlaylist := Except.ok "d1",
        addTracks := Except.ok true }
      "spotify" "youtube_music" "p1").message = "Successfully transferred 2 tracks!" := by
  have h := successful_transfer_completes
    { sourceAuth := Except.ok true,
      sourcePlaylists := Except.ok
        [{ id := "p1", name := "Mix", description := "", track_count := 2,
           owner := "me" }],
      sourceTracks := Except.ok
        [{ id := "a", name := "A", artist := "X", album := "L",
           uri := "spotify:track:a" },
         { id := "b", name := "B", artist := "Y", album := "M",
           uri := "spotify:track:b" }],
      destAuth := Except.ok true, createPlaylist := Except.ok "d1",
      addTracks := Except.ok true }
    "spotify" "youtube_music" "p1" "d1"
    [{ id := "p1", name := "Mix", description := "", track_count := 2, owner := "me" }]
    [{ id := "a", name := "A", artist := "X", album := "L", uri := "spotify:track:a" },
     { id := "b", name := "B", artist := "Y", album := "M", uri := "spotify:track:b" }]
    rfl rfl (by decide) rfl rfl rfl rfl
  refine ⟨h.1, h.2.1, ?_⟩
  rw [h.2.2]
  decide

/-- C2: over one execution of the transfer body, the values written to
`progress` form a prefix of the fixed checkpoint sequence
10, 20, 40, 60, 80, 100; together with the 0 stored at task creation,
every stored value lies in {0, 10, 20, 40, 60, 80, 100} and the writes
are monotonically non-decreasing. -/
theorem transfer_progress_checkpoints (env : TransferEnv) (sp dp pid : String) :
    ∃ k, k ≤ 6 ∧
      progressWrites (performTransfer env sp dp pid) = [10, 20, 40, 60, 80, 100].take k ∧
      nondecreasing (0 :: progressWrites (performTransfer env sp dp pid)) = true ∧
      ∀ p ∈ 0 :: progressWrites (performTransfer env sp dp pid),
        p ∈ [0, 10, 20, 40, 60, 80, 100] := by
  have aux : ∀ k, k < 7 →
      nondecreasing (0 :: List.take k [10, 20, 40, 60, 80, 100]) = true ∧
      ∀ p ∈ 0 :: List.take k [10, 20, 40, 60, 80, 100],
        p ∈ [0, 10, 20, 40, 60, 80, 100] := by decide
  suffices h : ∃ k, k ≤ 6 ∧
      progressWrites (performTransfer env sp dp pid) =
        [10, 20, 40, 60, 80, 100].take k by
    obtain ⟨k, hk, heq⟩ := h
    refine ⟨k, hk, heq, ?_, ?_⟩
    · rw [heq]
      exact (aux k (by omega)).1
    · rw [heq]
      exact (aux k (by omega)).2
  rcases env with ⟨a1, a2, a3, a4, a5, a6⟩
  cases a1 with
  | error e => exact ⟨1, by omega, by simp [performTransfer, progressWrites, failEvents]⟩
  | ok b1 =>
    cases b1 with
    | false => exact ⟨1, by omega, by simp [performTransfer, progressWrites, failEvents]⟩
    | true =>
      cases a2 with
      | error e =>
        exact ⟨2, by omega, by simp [performTransfer, progressWrites, failEvents]⟩
      | ok ps =>
        rcases hfind : ps.find? (fun p => p.id == pid) with _ | info
        · exact ⟨2, by omega,
            by simp [performTransfer, progressWrites, failEvents, hfind]⟩
        · cases a3 with
          | error e =>
            exact ⟨2, by omega,
              by simp [performTransfer, progressWrites, failEvents, hfind]⟩
          | ok ts =>
            cases a4 with
            | error e =>
              exact ⟨3, by omega,
                by simp [performTransfer, progressWrites, failEvents, hfind]⟩
            | ok b4 =>
              cases b4 with
              | false =>
                exact ⟨3, by omega,
                  by simp [performTransfer, progressWrites, failEvents, hfind]⟩
              | true =>
                cases a5 with
                | error e =>
                  exact ⟨4, by omega,
                    by simp [performTransfer, progressWrites, failEvents, hfind]⟩
                | ok did =>
                  cases a6 with
                  | error e =>
                    exact ⟨5, by omega,
                      by simp [performTransfer, progressWrites, failEvents, hfind]⟩
                  | ok b6 =>
                    cases b6 with
                    | false =>
                      exact ⟨5, by omega,
                        by simp [performTransfer, progressWrites, failEvents, hfind]⟩
                    | true =>
                      exact ⟨6, by omega,
                        by simp [performTransfer, progressWrites, failEvents, hfind]⟩

/-- Case analysis over all call outcomes: the transfer body always ends
in a terminal state, failures carry the message cause, and a `False`
from the final add ends the task failed. -/
theorem runTransfer_terminal_cases (env : TransferEnv) (sp dp pid : String) :
    ((runTransfer env sp dp pid).status = "completed" ∨
      (runTransfer env sp dp pid).status = "failed") ∧
    ((runTransfer env sp dp pid).status = "failed" →
      ∃ cause, (runTransfer env sp dp pid).message = "Transfer failed: " ++ cause) ∧
    (env.addTracks = Except.ok false → (runTransfer env sp dp pid).status = "failed") := by
  rcases env with ⟨a1, a2, a3, a4, a5, a6⟩
  cases a1 with
  | error e =>
    refine ⟨Or.inr ?_, fun _ => ⟨e, ?_⟩, fun _ => ?_⟩ <;>
      simp [runTransfer, performTransfer, applyEv, failEvents]
  | ok b1 =>
    cases b1 with
    | false =>
      refine ⟨Or.inr ?_, fun _ => ⟨"Failed to authenticate with " ++ sp, ?_⟩,
          fun _ => ?_⟩ <;>
        simp [runTransfer, performTransfer, applyEv, failEvents]
    | true =>
      cases a2 with
      | error e =>
        refine ⟨Or.inr ?_, fun _ => ⟨e, ?_⟩, fun _ => ?_⟩ <;>
          simp [runTransfer, performTransfer, applyEv, failEvents]
      | ok ps =>
        rcases hfind : ps.find? (fun p => p.id == pid) with _ | info
        · refine ⟨Or.inr ?_, fun _ => ⟨"Playlist " ++ pid ++ " not found", ?_⟩,
              fun _ => ?_⟩ <;>
            simp [runTransfer, performTransfer, applyEv, failEvents, hfind]
        · cases a3 with
          | error e =>
            refine ⟨Or.inr ?_, fun _ => ⟨e, ?_⟩, fun _ => ?_⟩ <;>
              simp [runTransfer, performTransfer, applyEv, failEvents, hfind]
          | ok ts =>
            cases a4 with
            | error e =>
              refine ⟨Or.inr ?_, fun _ => ⟨e, ?_⟩, fun _ => ?_⟩ <;>
                simp [runTransfer, performTransfer, applyEv, failEvents, hfind]
            | ok b4 =>
              cases b4 with
              | false =>
                refine ⟨Or.inr ?_, fun _ => ⟨"Failed to authenticate with " ++ dp, ?_⟩,
                    fun _ => ?_⟩ <;>
                  simp [runTransfer, performTransfer, applyEv, failEvents, hfind]
              | true =>
                cases a5 with
                | error e =>
                  refine ⟨Or.inr ?_, fun _ => ⟨e, ?_⟩, fun _ => ?_⟩ <;>
                    simp [runTransfer, performTransfer, applyEv, failEvents, hfind]
                | ok did =>
                  cases a6 with
                  | error e =>
                    refine ⟨Or.inr ?_, fun _ => ⟨e, ?_⟩, fun _ => ?_⟩ <;>
                      simp [runTransfer, performTransfer, applyEv, failEvents, hfind]
                  | ok b6 =>
                    cases b6 with
                    | false =>
                      refine ⟨Or.inr ?_,
                          fun _ => ⟨"Failed to add tracks to destination playlist", ?_⟩,
                          fun _ => ?_⟩ <;>
                        simp [runTransfer, performTransfer, applyEv, failEvents, hfind]
                    | true =>
                      have hr : (runTransfer
                          ⟨Except.ok true, Except.ok ps, Except.ok ts, Except.ok true,
                           Except.ok did, Except.ok true⟩ sp dp pid).status =
                          "completed" := by
                        simp [runTransfer, performTransfer, applyEv, hfind]
                      refine ⟨Or.inl hr, fun hc => ?_, fun hc => ?_⟩
                      · rw [hr] at hc
                        exact absurd hc (by decide)
                      · exact absurd (Except.ok.inj hc) (by decide)

/-- C3: whatever the outcomes of the external calls, the transfer body
terminates with the task in a terminal state: either `completed`, or
`failed` with a message of the form `Transfer failed: <cause>`; and for
every step that raises an exception, every `authenticate` that returns
`False`, a missing playlist, and `add_tracks_to_playlist` returning
`False`, the task ends `failed` with `Transfer failed: ` followed by the
exact text of the raised exception. The raised exception is always
consumed inside the body. -/
theorem transfer_reaches_terminal_state (env : TransferEnv) (sp dp pid : String) :
    ((runTransfer env sp dp pid).status = "completed" ∨
      (runTransfer env sp dp pid).status = "failed") ∧
    ((runTransfer env sp dp pid).status = "failed" →
      ∃ cause, (runTransfer env sp dp pid).message = "Transfer failed: " ++ cause) ∧
    (env.addTracks = Except.ok false → (runTransfer env sp dp pid).status = "failed") ∧
    (∀ e, env.sourceAuth = Except.error e →
      (runTransfer env sp dp pid).status = "failed" ∧
      (runTransfer env sp dp pid).message = "Transfer failed: " ++ e) ∧
    (env.sourceAuth = Except.ok false →
      (runTransfer env sp dp pid).status = "failed" ∧
      (runTransfer env sp dp pid).message =
        "Transfer failed: " ++ ("Failed to authenticate with " ++ sp)) ∧
    (∀ e, env.sourceAuth = Except.ok true → env.sourcePlaylists = Except.error e →
      (runTransfer env sp dp pid).status = "failed" ∧
      (runTransfer env sp dp pid).message = "Transfer failed: " ++ e) ∧
    (∀ ps, env.sourceAuth = Except.ok true → env.sourcePlaylists = Except.ok ps →
      ps.find? (fun p => p.id == pid) = none →
      (runTransfer env sp dp pid).status = "failed" ∧
      (runTransfer env sp dp pid).message =
        "Transfer failed: " ++ ("Playlist " ++ pid ++ " not found")) ∧
    (∀ ps info e, env.sourceAuth = Except.ok true →
      env.sourcePlaylists = Except.ok ps →
      ps.find? (fun p => p.id == pid) = some info →
      env.sourceTracks = Except.error e →
      (runTransfer env sp dp pid).status = "failed" ∧
      (runTransfer env sp dp pid).message = "Transfer failed: " ++ e) ∧
    (∀ ps info ts e, env.sourceAuth = Except.ok true →
      env.sourcePlaylists = Except.ok ps →
      ps.find? (fun p => p.id == pid) = some info →
      env.sourceTracks = Except.ok ts → env.destAuth = Except.error e →
      (runTransfer env sp dp pid).status = "failed" ∧
      (runTransfer env sp dp pid).message = "Transfer failed: " ++ e) ∧
    (∀ ps info ts, env.sourceAuth = Except.ok true →
      env.sourcePlaylists = Except.ok ps →
      ps.find? (fun p => p.id == pid) = some info →
      env.sourceTracks = Except.ok ts → env.destAuth = Except.ok false →
      (runTransfer env sp dp pid).status = "failed" ∧
      (runTransfer env sp dp pid).message =
        "Transfer failed: " ++ ("Failed to authenticate with " ++ dp)) ∧
    (∀ ps info ts e, env.sourceAuth = Except.ok true →
      env.sourcePlaylists = Except.ok ps →
      ps.find? (fun p => p.id == pid) = some info →
      env.sourceTracks = Except.ok ts → env.destAuth = Except.ok true →
      env.createPlaylist = Except.error e →
      (runTransfer env sp dp pid).status = "failed" ∧
      (runTransfer env sp dp pid).message = "Transfer failed: " ++ e) ∧
    (∀ ps info ts did e, env.sourceAuth = Except.ok true →
      env.sourcePlaylists = Except.ok ps →
      ps.find? (fun p => p.id == pid) = some info →
      env.sourceTracks = Except.ok ts → env.destAuth = Except.ok true →
      env.createPlaylist = Except.ok did → env.addTracks = Except.error e →
      (runTransfer env sp dp pid).status = "failed" ∧
      (runTransfer env sp dp pid).message = "Transfer failed: " ++ e) ∧
    (∀ ps info ts did, env.sourceAuth = Except.ok true →
      env.sourcePlaylists = Except.ok ps →
      ps.find? (fun p => p.id == pid) = some info →
      env.sourceTracks = Except.ok ts → env.destAuth = Except.ok true →
      env.createPlaylist = Except.ok did → env.addTracks = Except.ok false →
      (runTransfer env sp dp pid).status = "failed" ∧
      (runTransfer env sp dp pid).message =
        "Transfer failed: " ++ "Failed to add tracks to destination playlist") := by
  refine ⟨(runTransfer_terminal_cases env sp dp pid).1,
    (runTransfer_terminal_cases env sp dp pid).2.1,
    (runTransfer_terminal_cases env sp dp pid).2.2,
    fun e h1 => ?_, fun h1 => ?_, fun e h1 h2 => ?_, fun ps h1 h2 hf => ?_,
    fun ps info e h1 h2 hf h3 => ?_, fun ps info ts e h1 h2 hf h3 h4 => ?_,
    fun ps info ts h1 h2 hf h3 h4 => ?_, fun ps info ts e h1 h2 hf h3 h4 h5 => ?_,
    fun ps info ts did e h1 h2 hf h3 h4 h5 h6 => ?_,
    fun ps info ts did h1 h2 hf h3 h4 h5 h6 => ?_⟩ <;>
  exact ⟨by simp [runTransfer, performTransfer, applyEv, failEvents, *],
    by simp [runTransfer, performTransfer, applyEv, failEvents, *]⟩

/-- Witness for C3: with every earlier stage succeeding and
`add_tracks_to_playlist` returning `False` the task ends `failed` with
the exact prefixed message; with the source authentication raising, the
task ends `failed` with the raised text. -/
theorem transfer_reaches_terminal_state_witness :
    ((runTransfer
      { sourceAuth := Except.ok true,
        sourcePlaylists := Except.ok
          [{ id := "p1", name := "Mix", description := "", track_count := 0,
             owner := "me" }],
        sourceTracks := Except.ok [], destAuth := Except.ok true,
        createPlaylist := Except.ok "d1", addTracks := Except.ok false }
      "spotify" "youtube_music" "p1").status = "failed" ∧
     (runTransfer
      { sourceAuth := Except.ok true,
        sourcePlaylists := Except.ok
          [{ id := "p1", name := "Mix", description := "", track_count := 0,
             owner := "me" }],
        sourceTracks := Except.ok [], destAuth := Except.ok true,
        createPlaylist := Except.ok "d1", addTracks := Except.ok false }
      "spotify" "youtube_music" "p1").message =
        "Transfer failed: " ++ "Failed to add tracks to destination playlist") ∧
    ((runTransfer
      { sourceAuth := Except.error "network down",
        sourcePlaylists := Except.error "unused",
        sourceTracks := Except.error "unused", destAuth := Except.error "unused",
        createPlaylist := Except.error "unused", addTracks := Except.error "unused" }
      "spotify" "youtube_music" "p1").status = "failed" ∧
     (runTransfer
      { sourceAuth := Except.error "network down",
        sourcePlaylists := Except.error "unused",
        sourceTracks := Except.error "unused", destAuth := Except.error "unused",
        createPlaylist := Except.error "unused", addTracks := Except.error "unused" }
      "spotify" "youtube_music" "p1").message = "Transfer failed: " ++ "network down") :=
  ⟨(transfer_reaches_terminal_state
      { sourceAuth := Except.ok true,
        sourcePlaylists := Except.ok
          [{ id := "p1", name := "Mix", description := "", track_count := 0,
             owner := "me" }],
        sourceTracks := Except.ok [], destAuth := Except.ok true,
        createPlaylist := Except.ok "d1", addTracks := Except.ok false }
      "spotify" "youtube_music" "p1").2.2.2.2.2.2.2.2.2.2.2.2
      [{ id := "p1", name := "Mix", description := "", track_count := 0, owner := "me" }]
      { id := "p1", name := "Mix", description := "", track_count := 0, owner := "me" }
      [] "d1" rfl rfl rfl rfl rfl rfl rfl,
   (transfer_reaches_terminal_state
      { sourceAuth := Except.error "network down",
        sourcePlaylists := Except.error "unused",
        sourceTracks := Except.error "unused", destAuth := Except.error "unused",
        createPlaylist := Except.error "unused", addTracks := Except.error "unused" }
      "spotify" "youtube_music" "p1").2.2.2.1 "network down" rfl⟩
